import Mathlib

/-
  Shallow embedding of `transformer/model_dual.py`: the dual-encoder
  masked acoustic model (DualTransformerForMaskedAcousticModel), its
  phonetic/speaker sub-encoders, the fusion step, the masked L1
  objective, and the pretrained-weight loader `load_model`.

  Tensors of rank 3 ([batch, time, feature]) are embedded as nested
  lists of rationals.  Python runtime errors (ValueError, AssertionError,
  NotImplementedError, AttributeError, TypeError, RuntimeError,
  IndexError) are embedded as an error type carried in `Except`.
-/

namespace ModelDual

/-- Python exception kinds raised by the code under study. -/
inductive PyErr where
  | valueError
  | assertionError
  | notImplementedError
  | attributeError
  | typeError
  | runtimeError
  | indexError
  deriving DecidableEq, Repr

deriving instance DecidableEq for Except

/-- Rank-3 tensor [batch, time, feature] with rational entries. -/
abbrev Tensor3 := List (List (List ℚ))

/-- Shape predicate: `t` has `B` batch entries, each with `T` timesteps of width `D`. -/
def hasShape (t : Tensor3) (B T D : ℕ) : Prop :=
  t.length = B ∧ ∀ b ∈ t, b.length = T ∧ ∀ r ∈ b, r.length = D

instance (t : Tensor3) (B T D : ℕ) : Decidable (hasShape t B T D) := by
  unfold hasShape; infer_instance

/-- Configuration fields read by `DualTransformerConfig.__init__` (plus
`hidden_size` inherited from the base `TransformerConfig`). -/
structure DualConfig where
  hidden_size : ℕ
  dual_transformer : Bool
  decoder : Bool
  intermediate_pe : Bool
  combine : String
  phone_type : String
  phone_size : ℕ
  phone_dim : ℕ
  speaker_type : String
  speaker_size : ℕ
  speaker_dim : ℕ
  average_pooling : Bool
  pre_train : List String

/-- Result of `TransformerPhoneticEncoder.__init__` (model_dual.py lines
217-232): the `out_dim` attribute, or the construction-time exception.
Recognizer widths Modelled from the spec: `model_quantize.py` is not in
the sources; per the collaborator contract, `Recognizer(hidden_size,
size, dim)` exposes `out_dim = dim`. -/
def phoneticEncoderOutDim (c : DualConfig) : Except PyErr ℕ :=
  if c.phone_type = "l2" then .ok c.phone_dim
  else if c.phone_type = "gb" then .ok c.phone_dim
  else if c.phone_type = "gst" then .ok c.phone_dim
  else if c.phone_type = "linear" then .ok c.phone_dim
  else if c.phone_type = "none" then .ok c.hidden_size
  else .error .notImplementedError

/-- Result of `TransformerSpeakerEncoder.__init__` (model_dual.py lines
266-278).  Note: the third branch of the source tests
`config.phone_type == 'none'` (line 270), not `config.speaker_type`;
this embedding reproduces that test verbatim. -/
def speakerEncoderOutDim (c : DualConfig) : Except PyErr ℕ :=
  if c.speaker_type = "gst" then .ok c.speaker_dim
  else if c.speaker_type = "linear" then .ok c.speaker_dim
  else if c.phone_type = "none" then .ok c.hidden_size
  else .error .notImplementedError

/-- Encoder construction plus `code_dim` computation from
`DualTransformerForMaskedAcousticModel.__init__` (lines 111-124): build
the phonetic encoder iff `phone_dim != 0`, the speaker encoder iff
`speaker_dim != 0` (each may raise), then dispatch on the dims and the
combine policy. -/
def codeDim (c : DualConfig) : Except PyErr ℕ :=
  match (if c.phone_dim ≠ 0 then (phoneticEncoderOutDim c).map some else .ok none),
        (if c.speaker_dim ≠ 0 then (speakerEncoderOutDim c).map some else .ok none) with
  | .error e, _ => .error e
  | .ok _, .error e => .error e
  | .ok phoneOut, .ok spkOut =>
    if c.phone_dim = 0 ∧ c.speaker_dim = 0 then .error .valueError
    else if c.phone_dim = 0 ∨ c.speaker_dim = 0 then .ok (max c.phone_dim c.speaker_dim)
    else
      match phoneOut, spkOut with
      | some p, some s =>
        if c.combine = "concat" then .ok (p + s)
        else if c.combine = "add" then
          if p = s then .ok p else .error .assertionError
        else .error .notImplementedError
      | _, _ => .error .attributeError

/-- Python value restricted to strings and lists, used to model the
dynamically-typed `config.pre_train` handling. -/
inductive PyObj where
  | str (s : String)
  | list (xs : List PyObj)

/-- Python indexing `o[i]` with negative-index wraparound. -/
def pyIndex (o : PyObj) (i : ℤ) : Except PyErr PyObj :=
  match o with
  | .str _ => .error .typeError
  | .list xs =>
    let j : ℤ := if i < 0 then i + xs.length else i
    if j < 0 then .error .indexError
    else
      match xs.get? j.toNat with
      | some v => .ok v
      | none => .error .indexError

/-- `torch.load` accepts a path string (or file-like object); any other
argument such as a list raises. -/
def torchLoadPath (o : PyObj) : Except PyErr String :=
  match o with
  | .str s => .ok s
  | .list _ => .error .typeError

/-- Pre-train checkpoint-path resolution from
`DualTransformerForMaskedAcousticModel.__init__` (lines 136-139):
`if len(config.pre_train) == 1: config.pre_train = [config.pre_train]`
followed by `torch.load(config.pre_train[0])` and
`torch.load(config.pre_train[-1])`.  Returns the pair of paths the two
`torch.load` calls receive, or the exception raised. -/
def preTrainPaths (pre_train : List String) : Except PyErr (Option (String × String)) :=
  if pre_train.length > 0 then
    let pt : PyObj :=
      if pre_train.length = 1 then .list [.list (pre_train.map .str)]
      else .list (pre_train.map .str)
    do
      let p1 ← torchLoadPath (← pyIndex pt 0)
      let p2 ← torchLoadPath (← pyIndex pt (-1))
      pure (some (p1, p2))
  else pure none

/-- Full construction outcome of the model: encoder building and
`code_dim` (lines 111-124), then pre-train checkpoint resolution
(lines 136-139).  Returns `code_dim` when construction succeeds. -/
def constructOutcome (c : DualConfig) : Except PyErr ℕ := do
  let cd ← codeDim c
  let _ ← preTrainPaths c.pre_train
  pure cd

/-- Tensor size along dim 1 (`t.size(1)`: the time extent). -/
def tSize1 (t : Tensor3) : ℕ := (t.headD []).length

/-- The `tensor.repeat(1, n, 1)` operation: tile each batch entry `n`
times along the time dimension. -/
def trepeatTime (n : ℕ) (t : Tensor3) : Tensor3 :=
  t.map (fun b => (List.replicate n b).flatten)

/-- Element-wise sum of a list of equal-length rows. -/
def sumRows : List (List ℚ) → List ℚ
  | [] => []
  | [r] => r
  | r :: rs => List.zipWith (· + ·) r (sumRows rs)

/-- The `tensor.mean(dim=1).unsqueeze(1)` operation of
`TransformerSpeakerEncoder.forward` (line 290): average over time and
keep a singleton time axis. -/
def meanPool (t : Tensor3) : Tensor3 :=
  t.map (fun b => [(sumRows b).map (fun x => x / (b.length : ℚ))])

/-- `torch.cat((p, s), dim=2)`: concatenate along the feature axis. -/
def tcat (p s : Tensor3) : Tensor3 :=
  List.zipWith (fun pb sb => List.zipWith (fun pr sr => pr ++ sr) pb sb) p s

/-- Element-wise tensor addition `p + s`. -/
def tadd (p s : Tensor3) : Tensor3 :=
  List.zipWith (fun pb sb => List.zipWith (fun pr sr => List.zipWith (· + ·) pr sr) pb sb) p s

/-- The body of `TransformerSpeakerEncoder.forward` after the inner
Transformer (lines 289-295): optional average pooling over time, then
the optional recognizer (an external collaborator, passed as a
function). -/
def speakerEncoderForward (average_pooling with_recognizer : Bool)
    (recognizer : Tensor3 → Tensor3) (sequence_output : Tensor3) : Tensor3 :=
  let so := if average_pooling then meanPool sequence_output else sequence_output
  if with_recognizer then recognizer so else so

/-- Replicate-code step of `DualTransformerForMaskedAcousticModel.forward`
(lines 164-166): `if self.speaker_dim != 0 and self.average_pooling:
speaker_code = speaker_code.repeat(1, phonetic_code.size(1), 1)`.
Calling `.size(1)` on an absent (`None`) phonetic code raises
AttributeError. -/
def replicateCode (speaker_dim : ℕ) (average_pooling : Bool)
    (phonetic_code speaker_code : Option Tensor3) : Except PyErr (Option Tensor3) :=
  if speaker_dim ≠ 0 ∧ average_pooling then
    match speaker_code with
    | none => .error .attributeError
    | some s =>
      match phonetic_code with
      | none => .error .attributeError
      | some p => .ok (some (trepeatTime (tSize1 p) s))
  else .ok speaker_code

/-- Combine-code step of `DualTransformerForMaskedAcousticModel.forward`
(lines 168-178): dispatch on the dims and the combine policy.  Passing
an absent code to `torch.cat` or `+` raises TypeError (unreachable after
construction validation). -/
def combineCode (phone_dim speaker_dim : ℕ) (combine : String)
    (phonetic_code speaker_code : Option Tensor3) : Except PyErr (Option Tensor3) :=
  if speaker_dim = 0 then .ok phonetic_code
  else if phone_dim = 0 then .ok speaker_code
  else if combine = "concat" then
    match phonetic_code, speaker_code with
    | some p, some s => .ok (some (tcat p s))
    | _, _ => .error .typeError
  else if combine = "add" then
    match phonetic_code, speaker_code with
    | some p, some s => .ok (some (tadd p s))
    | _, _ => .error .typeError
  else .error .notImplementedError

/-- Replicate-then-combine stage of the model forward (lines 164-178). -/
def fuseStep (phone_dim speaker_dim : ℕ) (average_pooling : Bool) (combine : String)
    (phonetic_code speaker_code : Option Tensor3) : Except PyErr (Option Tensor3) := do
  let sc ← replicateCode speaker_dim average_pooling phonetic_code speaker_code
  combineCode phone_dim speaker_dim combine phonetic_code sc

/-- Model forward up to the fused code (lines 147-178): each encoder
output is present iff its dim is nonzero (lines 147-154), then the
replicate and combine steps run.  The encoder outputs themselves are
external inputs here. -/
def dualForwardCode (c : DualConfig) (phoneticOut speakerOut : Tensor3) :
    Except PyErr (Option Tensor3) :=
  let pc := if c.phone_dim ≠ 0 then some phoneticOut else none
  let sc := if c.speaker_dim ≠ 0 then some speakerOut else none
  fuseStep c.phone_dim c.speaker_dim c.average_pooling c.combine pc sc

/-- The `masked_select` operation on a flattened tensor: keep the
entries whose mask is true, in order. -/
def maskedSelect (t : List ℚ) (mask : List Bool) : List ℚ :=
  (t.zip mask).filterMap (fun pm => if pm.2 then some pm.1 else none)

/-- `mask.sum()` for a boolean mask: the number of selected positions. -/
def maskSum (mask : List Bool) : ℕ := mask.countP (· = true)

/-- `nn.L1Loss()` with the default mean reduction: mean absolute
difference over the paired entries. -/
def l1LossMean (a b : List ℚ) : ℚ :=
  (List.zipWith (fun x y => |x - y|) a b).sum / (a.length : ℚ)

/-- Objective computation of the model forward (lines 196-199), on
flattened prediction/label tensors: assert the mask selects at least
one position, then take the mean L1 loss over the selected entries. -/
def computeObjective (pred label : List ℚ) (mask : List Bool) : Except PyErr ℚ :=
  if maskSum mask = 0 then .error .assertionError
  else .ok (l1LossMean (maskedSelect pred mask) (maskedSelect label mask))

/-- Parameter tensor abstracted to a shape tag plus a representative
value; assignment succeeds exactly when shapes agree. -/
structure Param where
  shape : List ℕ
  val : ℚ
  deriving DecidableEq, Repr

/-- A state dict or flattened module parameter tree: an association
list from parameter name to tensor. -/
abbrev StateDict := List (String × Param)

/-- Test whether `pat` is an initial segment of `l`. -/
def startsWithList : List Char → List Char → Bool
  | [], _ => true
  | _ :: _, [] => false
  | p :: ps, c :: cs => p = c && startsWithList ps cs

/-- Test whether `pat` occurs as a contiguous sublist of `l`
(the Python `pat in s` test for nonempty `pat`). -/
def hasSubList (pat : List Char) : List Char → Bool
  | [] => startsWithList pat []
  | c :: cs => startsWithList pat (c :: cs) || hasSubList pat cs

/-- Fueled left-to-right replacement of every nonoverlapping occurrence
of `pat` by `rep`, the semantics of Python `str.replace`. -/
def replaceFuel : ℕ → List Char → List Char → List Char → List Char
  | 0, l, _, _ => l
  | _ + 1, [], _, _ => []
  | n + 1, c :: cs, pat, rep =>
    if pat ≠ [] && startsWithList pat (c :: cs) then
      rep ++ replaceFuel n ((c :: cs).drop pat.length) pat rep
    else c :: replaceFuel n cs pat rep

/-- Substring test `pat in s` on strings. -/
def strContains (s pat : String) : Bool := hasSubList pat.data s.data

/-- Python `s.replace(pat, rep)`: replace every occurrence. -/
def strReplace (s pat rep : String) : String :=
  ⟨replaceFuel s.data.length s.data pat.data rep.data⟩

/-- Key renaming of `load_model` (lines 309-317): if the key contains
`gamma` propose the `gamma`→`weight` rename; if it contains `beta`
overwrite the proposal with the `beta`→`bias` rename; keep the key
unchanged when neither applies. -/
def remapKey (k : String) : String :=
  let newKey : Option String :=
    if strContains k "gamma" then some (strReplace k "gamma" "weight") else none
  let newKey : Option String :=
    if strContains k "beta" then some (strReplace k "beta" "bias") else newKey
  newKey.getD k

/-- Assoc-list write `sd[k] = v`: overwrite the existing binding or
append a new one. -/
def sdSet (sd : StateDict) (k : String) (v : Param) : StateDict :=
  if (sd.find? (fun kv => kv.1 = k)).isSome then
    sd.map (fun kv => if kv.1 = k then (k, v) else kv)
  else sd ++ [(k, v)]

/-- Assoc-list `sd.pop(k)`: the value bound to `k` and the dict without it. -/
def sdPop (sd : StateDict) (k : String) : Option Param × StateDict :=
  ((sd.find? (fun kv => kv.1 = k)).map (fun kv => kv.2),
   sd.filter (fun kv => kv.1 ≠ k))

/-- State-dict renaming pass of `load_model` (lines 307-319): collect
the keys containing `gamma` or `beta` with their renamed forms, then
pop each old key and store its value under the new key. -/
def remapSD (sd0 : StateDict) : StateDict :=
  let pairs := sd0.filterMap (fun kv =>
    if strContains kv.1 "gamma" ∨ strContains kv.1 "beta" then
      some (kv.1, remapKey kv.1)
    else none)
  pairs.foldl (fun sd pr =>
    match sdPop sd pr.1 with
    | (some v, sd1) => sdSet sd1 pr.2 v
    | (none, _) => sd) sd0

/-- Recursive parameter assignment of `load_model` (lines 321-338).
Modelled from the spec: the torch `_load_from_state_dict` machinery is
an external collaborator; per §4.6 it assigns matching-named parameters
in place one by one, collects missing and unexpected names, and records
a shape mismatch as an error message while continuing.  Returns the
module parameters after the in-place pass, the missing keys, the
unexpected keys, and the error messages. -/
def applyStateDict (m sd : StateDict) :
    StateDict × List String × List String × List String :=
  let missing := (m.filter (fun kv => (sd.find? (fun s => s.1 = kv.1)).isNone)).map (fun kv => kv.1)
  let unexpected := (sd.filter (fun kv => (m.find? (fun p => p.1 = kv.1)).isNone)).map (fun kv => kv.1)
  let results := m.map (fun kv =>
    match sd.find? (fun s => s.1 = kv.1) with
    | some sv =>
      if sv.2.shape = kv.2.shape then ((kv.1, Param.mk kv.2.shape sv.2.val), none)
      else (kv, some kv.1)
    | none => (kv, none))
  (results.map (fun r => r.1), missing, unexpected, results.filterMap (fun r => r.2))

/-- The `load_model` function (lines 305-352): rename legacy keys,
assign parameters in place collecting missing/unexpected names as
warnings only, raise RuntimeError when any error message accumulated;
the surrounding bare `except` converts every failure into the single
`RuntimeError` of line 352. -/
def load_model (m sd : StateDict) : Except PyErr StateDict :=
  let r := applyStateDict m (remapSD sd)
  if r.2.2.2 = [] then .ok r.1 else .error .runtimeError

/-- Boolean success test for an `Except` outcome. -/
def isOkE {α : Type} (e : Except PyErr α) : Bool :=
  match e with
  | .ok _ => true
  | .error _ => false

/-- Config with only the phonetic encoder, of type `none`: the encoder
out_dim is hidden_size 768 while phone_dim is 5. -/
def cfgPhoneNoneOnly : DualConfig :=
  { hidden_size := 768, dual_transformer := true, decoder := false, intermediate_pe := false,
    combine := "concat", phone_type := "none", phone_size := 0, phone_dim := 5,
    speaker_type := "gst", speaker_size := 0, speaker_dim := 0, average_pooling := false,
    pre_train := [] }

/-- Config with only the phonetic encoder, of type `linear` with
phone_dim 3. -/
def cfgPhoneLinearOnly : DualConfig :=
  { hidden_size := 768, dual_transformer := true, decoder := false, intermediate_pe := false,
    combine := "concat", phone_type := "linear", phone_size := 0, phone_dim := 3,
    speaker_type := "gst", speaker_size := 0, speaker_dim := 0, average_pooling := false,
    pre_train := [] }

/-- Config with both encoders, supported tags (`gst` phonetic, `none`
speaker), combine `concat`. -/
def cfgSpeakerNone : DualConfig :=
  { hidden_size := 768, dual_transformer := true, decoder := false, intermediate_pe := false,
    combine := "concat", phone_type := "gst", phone_size := 32, phone_dim := 3,
    speaker_type := "none", speaker_size := 0, speaker_dim := 4, average_pooling := false,
    pre_train := [] }

/-- Config with an unsupported speaker tag while phone_type is `none`. -/
def cfgSpeakerBadTag : DualConfig :=
  { hidden_size := 768, dual_transformer := true, decoder := false, intermediate_pe := false,
    combine := "concat", phone_type := "none", phone_size := 0, phone_dim := 3,
    speaker_type := "styletokens", speaker_size := 8, speaker_dim := 4, average_pooling := false,
    pre_train := [] }

/-- Config with only the speaker encoder and average pooling enabled. -/
def cfgSpeakerOnlyAvgPool : DualConfig :=
  { hidden_size := 768, dual_transformer := true, decoder := false, intermediate_pe := false,
    combine := "concat", phone_type := "none", phone_size := 0, phone_dim := 0,
    speaker_type := "gst", speaker_size := 8, speaker_dim := 4, average_pooling := true,
    pre_train := [] }

/-- Membership in a zipped-with list comes from members of the inputs. -/
theorem mem_zipWith {α β γ : Type} {f : α → β → γ} :
    ∀ {l1 : List α} {l2 : List β} {c : γ}, c ∈ List.zipWith f l1 l2 →
      ∃ a b, a ∈ l1 ∧ b ∈ l2 ∧ c = f a b
  | [], _, _, h => by simp at h
  | _ :: _, [], _, h => by simp at h
  | a :: l, b :: m, c, h => by
    rw [List.zipWith_cons_cons, List.mem_cons] at h
    rcases h with h | h
    · exact ⟨a, b, by simp, by simp, h⟩
    · obtain ⟨x, y, hx, hy, hc⟩ := mem_zipWith h
      exact ⟨x, y, by simp [hx], by simp [hy], hc⟩

/-- Feature-axis concatenation of two tensors of matching batch and
time extents has the sum of the feature widths. -/
theorem tcat_shape {p s : Tensor3} {B T D1 D2 : ℕ}
    (hp : hasShape p B T D1) (hs : hasShape s B T D2) :
    hasShape (tcat p s) B T (D1 + D2) := by
  obtain ⟨hpl, hpb⟩ := hp
  obtain ⟨hsl, hsb⟩ := hs
  constructor
  · simp [tcat, List.length_zipWith, hpl, hsl]
  · intro b hb
    obtain ⟨pb, sb, hpbm, hsbm, rfl⟩ := mem_zipWith hb
    obtain ⟨hpbl, hpbr⟩ := hpb pb hpbm
    obtain ⟨hsbl, hsbr⟩ := hsb sb hsbm
    constructor
    · simp [List.length_zipWith, hpbl, hsbl]
    · intro r hr
      obtain ⟨pr, sr, hprm, hsrm, rfl⟩ := mem_zipWith hr
      simp [hpbr pr hprm, hsbr sr hsrm]

/-- The row-wise sum of a nonempty list of width-`H` rows has width `H`. -/
theorem sumRows_length : ∀ {rows : List (List ℚ)} {H : ℕ}, rows ≠ [] →
    (∀ r ∈ rows, r.length = H) → (sumRows rows).length = H
  | [], _, hne, _ => absurd rfl hne
  | [r], _, _, hr => by simpa [sumRows] using hr r (by simp)
  | r :: r2 :: rs, H, _, hr => by
    have ih := @sumRows_length (r2 :: rs) H (by simp)
      (fun x hx => hr x (by simp [List.mem_cons] at hx ⊢; tauto))
    simp [sumRows, List.length_zipWith, hr r (by simp), ih]

/-- Average pooling collapses a [B, T, H] tensor with T > 0 to shape [B, 1, H]. -/
theorem meanPool_shape {t : Tensor3} {B T H : ℕ} (ht : hasShape t B T H) (hT : T ≠ 0) :
    hasShape (meanPool t) B 1 H := by
  obtain ⟨hl, hb⟩ := ht
  constructor
  · simp [meanPool, hl]
  · intro b hbm
    simp only [meanPool, List.mem_map] at hbm
    obtain ⟨a, ham, rfl⟩ := hbm
    obtain ⟨hal, har⟩ := hb a ham
    refine ⟨by simp, ?_⟩
    intro r hr
    simp only [List.mem_singleton] at hr
    subst hr
    have hne : a ≠ [] := by
      intro hcon
      subst hcon
      simp at hal
      exact hT hal.symm
    simp [sumRows_length hne har]

/-- Flattening `n` copies of a singleton list gives `n` copies of the element. -/
theorem flatten_replicate_singleton {α : Type} (n : ℕ) (r : α) :
    (List.replicate n [r]).flatten = List.replicate n r := by
  induction n with
  | zero => simp
  | succ k ih => simp [List.replicate_succ, ih]

/-- Tiling a [B, 1, D] tensor `n` times along time gives shape [B, n, D]. -/
theorem trepeatTime_shape {t : Tensor3} {B D : ℕ} (n : ℕ) (ht : hasShape t B 1 D) :
    hasShape (trepeatTime n t) B n D := by
  obtain ⟨hl, hb⟩ := ht
  constructor
  · simp [trepeatTime, hl]
  · intro b hbm
    simp only [trepeatTime, List.mem_map] at hbm
    obtain ⟨a, ham, rfl⟩ := hbm
    obtain ⟨hal, har⟩ := hb a ham
    obtain ⟨r, rfl⟩ : ∃ r, a = [r] := List.length_eq_one.mp hal
    rw [flatten_replicate_singleton]
    refine ⟨by simp, ?_⟩
    intro x hx
    rw [List.eq_of_mem_replicate hx]
    exact har r (by simp)

/-- Tiling a tensor whose batch entries are singletons equals replicating
each singleton value across the time axis. -/
theorem trepeatTime_singleton {t : Tensor3} (n : ℕ) (h : ∀ b ∈ t, b.length = 1) :
    trepeatTime n t = t.map (fun b => List.replicate n (b.headD [])) := by
  unfold trepeatTime
  apply List.map_congr_left
  intro b hb
  obtain ⟨r, rfl⟩ := List.length_eq_one.mp (h b hb)
  simp [flatten_replicate_singleton]

/-- Selecting from a cons with a true mask head keeps the head. -/
theorem maskedSelect_cons_true (x : ℚ) (xs : List ℚ) (ms : List Bool) :
    maskedSelect (x :: xs) (true :: ms) = x :: maskedSelect xs ms := by
  simp [maskedSelect]

/-- Selecting from a cons with a false mask head drops the head. -/
theorem maskedSelect_cons_false (x : ℚ) (xs : List ℚ) (ms : List Bool) :
    maskedSelect (x :: xs) (false :: ms) = maskedSelect xs ms := by
  simp [maskedSelect]

/-- The masked selection has exactly `maskSum mask` entries. -/
theorem maskedSelect_length : ∀ {t : List ℚ} {mask : List Bool}, t.length = mask.length →
    (maskedSelect t mask).length = maskSum mask
  | [], [], _ => by simp [maskedSelect, maskSum]
  | [], _ :: _, h => by simp at h
  | _ :: _, [], h => by simp at h
  | x :: xs, m :: ms, h => by
    have ih := @maskedSelect_length xs ms (by simpa using h)
    cases m
    · simpa [maskedSelect_cons_false, maskSum, List.countP_cons] using ih
    · simp [maskedSelect_cons_true, maskSum, List.countP_cons] at ih ⊢
      omega

/-- Masked selection only reads the entries at selected positions. -/
theorem maskedSelect_congr {t u : List ℚ} {mask : List Bool}
    (ht : t.length = mask.length) (hu : u.length = mask.length)
    (hag : ∀ i : ℕ, mask[i]? = some true → t[i]? = u[i]?) :
    maskedSelect t mask = maskedSelect u mask := by
  induction mask generalizing t u with
  | nil =>
    rw [List.length_nil, List.length_eq_zero] at ht hu
    subst ht
    subst hu
    rfl
  | cons m ms ih =>
    cases t with
    | nil => simp at ht
    | cons x xs =>
      cases u with
      | nil => simp at hu
      | cons y ys =>
        have hts : xs.length = ms.length := by simpa using ht
        have hus : ys.length = ms.length := by simpa using hu
        have hagt : ∀ i : ℕ, ms[i]? = some true → xs[i]? = ys[i]? := by
          intro i hi
          have := hag (i + 1) (by simpa using hi)
          simpa using this
        have htl := ih hts hus hagt
        cases m with
        | false => simpa [maskedSelect_cons_false] using htl
        | true =>
          have hx : x = y := by
            have := hag 0 (by simp)
            simpa using this
          rw [maskedSelect_cons_true, maskedSelect_cons_true, hx, htl]

/-- C1 counterexample: with phone_dim = 5, speaker_dim = 0 and
phone_type "none", construction sets code_dim to 5 while the one
instantiated encoder's out_dim is hidden_size = 768: code_dim is the
configured dim, not the encoder's out_dim. -/
theorem c1_counterexample :
    codeDim cfgPhoneNoneOnly = .ok 5 ∧
    phoneticEncoderOutDim cfgPhoneNoneOnly = .ok 768 ∧
    (5 : ℕ) ≠ 768 := by
  refine ⟨by decide, by decide, by decide⟩

/-- C1 (amended): when exactly one of phone_dim/speaker_dim is zero,
code_dim equals the nonzero configured dim (which coincides with the
instantiated encoder's out_dim for the recognizer types but not for
type "none"); when both are nonzero, combine "concat" gives the sum of
the two out_dims and combine "add" their common value. -/
theorem c1_code_dim_amended (c : DualConfig) :
    (c.phone_dim ≠ 0 → c.speaker_dim = 0 → isOkE (phoneticEncoderOutDim c) = true →
      codeDim c = .ok c.phone_dim) ∧
    (c.phone_dim = 0 → c.speaker_dim ≠ 0 → isOkE (speakerEncoderOutDim c) = true →
      codeDim c = .ok c.speaker_dim) ∧
    (∀ p s, c.phone_dim ≠ 0 → c.speaker_dim ≠ 0 → c.combine = "concat" →
      phoneticEncoderOutDim c = .ok p → speakerEncoderOutDim c = .ok s →
      codeDim c = .ok (p + s)) ∧
    (∀ d, c.phone_dim ≠ 0 → c.speaker_dim ≠ 0 → c.combine = "add" →
      phoneticEncoderOutDim c = .ok d → speakerEncoderOutDim c = .ok d →
      codeDim c = .ok d) := by
  refine ⟨?_, ?_, ?_, ?_⟩
  · intro hp hs hok
    cases h : phoneticEncoderOutDim c with
    | ok p => simp [codeDim, hp, hs, h, Except.map]
    | error e => simp [isOkE, h] at hok
  · intro hp hs hok
    cases h : speakerEncoderOutDim c with
    | ok s => simp [codeDim, hp, hs, h, Except.map]
    | error e => simp [isOkE, h] at hok
  · intro p s hp hs hcomb hP hS
    simp [codeDim, hp, hs, hP, hS, hcomb, Except.map]
  · intro d hp hs hcomb hP hS
    simp [codeDim, hp, hs, hP, hS, hcomb, Except.map]

/-- C1 witness: the amended theorem applied to the linear-phonetic-only
config, whose code_dim is phone_dim = 3. -/
theorem c1_code_dim_amended_witness : codeDim cfgPhoneLinearOnly = .ok 3 :=
  (c1_code_dim_amended cfgPhoneLinearOnly).1 (by decide) (by decide) (by decide)

/-- C2: at the failing input (phone_type "gst", speaker_type "none",
both dims nonzero, combine "concat", all tags supported), construction
raises NotImplementedError rather than succeeding: the speaker
encoder's no-recognizer branch tests phone_type instead of
speaker_type (model_dual.py line 270). -/
theorem c2_speaker_type_dispatch_bug :
    constructOutcome cfgSpeakerNone = .error .notImplementedError := by
  decide

/-- C3: fusion returns the phonetic code unchanged when the speaker
code is absent (speaker_dim = 0), the speaker code when the phonetic
code is absent, the feature-axis concatenation (with summed widths)
under "concat", and the element-wise sum under "add". -/
theorem c3_fusion (pd sd : ℕ) (combine : String) (pc sc : Option Tensor3) :
    (sd = 0 → combineCode pd sd combine pc sc = .ok pc) ∧
    (sd ≠ 0 → pd = 0 → combineCode pd sd combine pc sc = .ok sc) ∧
    (∀ p s, pd ≠ 0 → sd ≠ 0 → combine = "concat" →
      combineCode pd sd combine (some p) (some s) = .ok (some (tcat p s)) ∧
      ∀ B T D1 D2, hasShape p B T D1 → hasShape s B T D2 →
        hasShape (tcat p s) B T (D1 + D2)) ∧
    (∀ p s, pd ≠ 0 → sd ≠ 0 → combine = "add" →
      combineCode pd sd combine (some p) (some s) = .ok (some (tadd p s))) := by
  refine ⟨?_, ?_, ?_, ?_⟩
  · intro hs
    simp [combineCode, hs]
  · intro hs hp
    simp [combineCode, hs, hp]
  · intro p s hp hs hcomb
    subst hcomb
    refine ⟨by simp [combineCode, hp, hs], ?_⟩
    intro B T D1 D2 h1 h2
    exact tcat_shape h1 h2
  · intro p s hp hs hcomb
    subst hcomb
    have hne : ("add" : String) ≠ "concat" := by decide
    simp [combineCode, hp, hs, hne]

/-- C3 witness: the literal examples — "add" on [[1,2]] and [[3,4]]
gives [[4,6]], "concat" gives [[1,2,3,4]], and speaker_dim = 0 passes
the phonetic code through unchanged. -/
theorem c3_fusion_witness :
    combineCode 2 2 "add" (some [[[1, 2]]]) (some [[[3, 4]]]) = .ok (some [[[4, 6]]]) ∧
    combineCode 2 2 "concat" (some [[[1, 2]]]) (some [[[3, 4]]]) = .ok (some [[[1, 2, 3, 4]]]) ∧
    combineCode 2 0 "concat" (some [[[1, 2]]]) none = .ok (some [[[1, 2]]]) := by
  refine ⟨?_, ?_, ?_⟩
  · have h := (c3_fusion 2 2 "add" (some [[[1, 2]]]) (some [[[3, 4]]])).2.2.2
      [[[1, 2]]] [[[3, 4]]] (by decide) (by decide) rfl
    rw [h]
    norm_num [tadd, List.zipWith]
  · have h := ((c3_fusion 2 2 "concat" (some [[[1, 2]]]) (some [[[3, 4]]])).2.2.1
      [[[1, 2]]] [[[3, 4]]] (by decide) (by decide) rfl).1
    rw [h]
    norm_num [tcat, List.zipWith]
  · exact (c3_fusion 2 0 "concat" (some [[[1, 2]]]) none).1 rfl

/-- C4: with average pooling, the speaker representation collapses to
one timestep of shape [B, 1, H] before the recognizer; the recognizer
output is a [B, 1, D] singleton code, and tiling it across the phonetic
sequence length T gives shape [B, T, D] with every timestep equal to
the original singleton value. -/
theorem c4_average_pooling_broadcast (recognizer : Tensor3 → Tensor3) (so : Tensor3)
    (B T0 H D T : ℕ) (hso : hasShape so B T0 H) (hT0 : T0 ≠ 0)
    (hrec : hasShape (recognizer (meanPool so)) B 1 D) :
    hasShape (meanPool so) B 1 H ∧
    hasShape (speakerEncoderForward true true recognizer so) B 1 D ∧
    trepeatTime T (speakerEncoderForward true true recognizer so) =
      (speakerEncoderForward true true recognizer so).map
        (fun b => List.replicate T (b.headD [])) ∧
    hasShape (trepeatTime T (speakerEncoderForward true true recognizer so)) B T D := by
  have henc : speakerEncoderForward true true recognizer so = recognizer (meanPool so) := by
    simp [speakerEncoderForward]
  refine ⟨meanPool_shape hso hT0, ?_, ?_, ?_⟩
  · rw [henc]
    exact hrec
  · rw [henc]
    exact trepeatTime_singleton T (fun b hb => (hrec.2 b hb).1)
  · rw [henc]
    exact trepeatTime_shape T hrec

/-- C4 witness: identity recognizer on a 1x2x2 input; the pooled code
[[2,3]] tiled three times has shape [1, 3, 2]. -/
theorem c4_average_pooling_broadcast_witness :
    hasShape (trepeatTime 3 (speakerEncoderForward true true (fun t => t)
      [[[1, 2], [3, 4]]])) 1 3 2 := by
  have h := (c4_average_pooling_broadcast (fun t => t) [[[1, 2], [3, 4]]] 1 2 2 2 3
    (by decide) (by decide) (by norm_num [meanPool, sumRows, List.zipWith, hasShape])).2.2.2
  exact h

/-- C5: the masked objective fails with the assertion error exactly
when the mask selects zero positions; with k > 0 selected positions the
loss is the mean absolute difference over exactly those positions, and
it only depends on the entries at selected positions. -/
theorem c5_masked_objective (pred label pred2 label2 : List ℚ) (mask : List Bool)
    (h1 : pred.length = mask.length) (h2 : label.length = mask.length)
    (h3 : pred2.length = mask.length) (h4 : label2.length = mask.length) :
    (maskSum mask = 0 → computeObjective pred label mask = .error .assertionError) ∧
    (maskSum mask ≠ 0 → computeObjective pred label mask =
      .ok ((List.zipWith (fun x y => |x - y|)
        (maskedSelect pred mask) (maskedSelect label mask)).sum / (maskSum mask : ℚ))) ∧
    ((∀ i : ℕ, mask[i]? = some true → pred[i]? = pred2[i]? ∧ label[i]? = label2[i]?) →
      computeObjective pred label mask = computeObjective pred2 label2 mask) := by
  refine ⟨?_, ?_, ?_⟩
  · intro hk
    simp [computeObjective, hk]
  · intro hk
    simp only [computeObjective, if_neg hk, l1LossMean]
    rw [maskedSelect_length h1]
  · intro hag
    unfold computeObjective
    rw [maskedSelect_congr h1 h3 (fun i hi => (hag i hi).1),
        maskedSelect_congr h2 h4 (fun i hi => (hag i hi).2)]

/-- C5 witness: the literal example pred=[1,5,9], label=[2,0,7],
mask=[true,false,true] gives loss (|1-2|+|9-7|)/2 = 3/2, unchanged when
the unmasked middle entries are replaced. -/
theorem c5_masked_objective_witness :
    computeObjective [1, 5, 9] [2, 0, 7] [true, false, true] = .ok (3 / 2) ∧
    computeObjective [1, 5, 9] [2, 0, 7] [true, false, true] =
      computeObjective [1, 100, 9] [2, 55, 7] [true, false, true] := by
  constructor
  · have h := (c5_masked_objective [1, 5, 9] [2, 0, 7] [1, 5, 9] [2, 0, 7]
      [true, false, true] (by decide) (by decide) (by decide) (by decide)).2.1 (by decide)
    rw [h]
    norm_num [maskedSelect, maskSum, List.zipWith, List.filterMap]
  · refine (c5_masked_objective [1, 5, 9] [2, 0, 7] [1, 100, 9] [2, 55, 7]
      [true, false, true] (by decide) (by decide) (by decide) (by decide)).2.2 ?_
    intro i hi
    match i with
    | 0 => exact ⟨rfl, rfl⟩
    | 1 => exact absurd hi (by decide)
    | 2 => exact ⟨rfl, rfl⟩
    | n + 3 => simp at hi

/-- C6: the speaker encoder's dispatch is broken by the phone_type test
on model_dual.py line 270: with an unsupported speaker_type but
phone_type "none" construction succeeds with out_dim = hidden_size
(where the claim requires a ConfigError), and with speaker_type "none"
but phone_type "gst" it raises (where the claim requires out_dim =
hidden_size). -/
theorem c6_speaker_encoder_dispatch_bug :
    speakerEncoderOutDim cfgSpeakerBadTag = .ok 768 ∧
    speakerEncoderOutDim cfgSpeakerNone = .error .notImplementedError := by
  refine ⟨by decide, by decide⟩

/-- C7 counterexample: the checkpoint key "enc.gamma.beta" contains
"gamma" but is renamed to "enc.gamma.bias", not to "enc.weight.beta";
a target parameter named "enc.weight.beta" is therefore left unchanged
and the load still succeeds. -/
theorem c7_counterexample :
    remapKey "enc.gamma.beta" = "enc.gamma.bias" ∧
    remapKey "enc.gamma.beta" ≠ "enc.weight.beta" ∧
    load_model [("enc.weight.beta", Param.mk [2] 0)] [("enc.gamma.beta", Param.mk [2] 9)] =
      .ok [("enc.weight.beta", Param.mk [2] 0)] := by
  refine ⟨by decide, by decide, by decide⟩

/-- C7 (amended): a key containing "gamma" but not "beta" is renamed
with gamma→weight; any key containing "beta" is renamed with beta→bias
(this takes precedence when a key contains both substrings); missing
and unexpected names never cause failure — the load succeeds whenever
no assignment error message accumulates. -/
theorem c7_remap_amended :
    (∀ k : String, strContains k "gamma" = true → strContains k "beta" = false →
      remapKey k = strReplace k "gamma" "weight") ∧
    (∀ k : String, strContains k "beta" = true →
      remapKey k = strReplace k "beta" "bias") ∧
    (∀ m sd : StateDict, (applyStateDict m (remapSD sd)).2.2.2 = [] →
      load_model m sd = .ok (applyStateDict m (remapSD sd)).1) := by
  refine ⟨?_, ?_, ?_⟩
  · intro k h1 h2
    simp [remapKey, h1, h2]
  · intro k h
    simp [remapKey, h]
  · intro m sd h
    simp [load_model, h]

/-- C7 witness: "layer.gamma" goes to "layer.weight", "layer.beta" to
"layer.bias", and a load with one unexpected checkpoint key and one
unfillable target parameter succeeds with the matching parameter
assigned. -/
theorem c7_remap_amended_witness :
    remapKey "layer.gamma" = "layer.weight" ∧
    remapKey "layer.beta" = "layer.bias" ∧
    load_model [("a", Param.mk [1] 0), ("m", Param.mk [1] 0)]
        [("a", Param.mk [1] 5), ("u", Param.mk [1] 7)] =
      .ok [("a", Param.mk [1] 5), ("m", Param.mk [1] 0)] := by
  refine ⟨?_, ?_, ?_⟩
  · have h := c7_remap_amended.1 "layer.gamma" (by decide) (by decide)
    rw [h]
    decide
  · have h := c7_remap_amended.2.1 "layer.beta" (by decide)
    rw [h]
    decide
  · have h := c7_remap_amended.2.2 [("a", Param.mk [1] 0), ("m", Param.mk [1] 0)]
      [("a", Param.mk [1] 5), ("u", Param.mk [1] 7)] (by decide)
    rw [h]
    decide

/-- C8 counterexample: a load with one shape-matching and one
shape-mismatched checkpoint entry fails with RuntimeError, yet the
parameter state at the moment of failure has the matching parameter
already overwritten: the load is not atomic. -/
theorem c8_counterexample :
    load_model [("w1", Param.mk [4] 0), ("w2", Param.mk [2] 0)]
        [("w1", Param.mk [4] 3), ("w2", Param.mk [5] 7)] = .error .runtimeError ∧
    (applyStateDict [("w1", Param.mk [4] 0), ("w2", Param.mk [2] 0)]
        (remapSD [("w1", Param.mk [4] 3), ("w2", Param.mk [5] 7)])).1 =
      [("w1", Param.mk [4] 3), ("w2", Param.mk [2] 0)] ∧
    ([("w1", Param.mk [4] 3), ("w2", Param.mk [2] 0)] : StateDict) ≠
      [("w1", Param.mk [4] 0), ("w2", Param.mk [2] 0)] := by
  refine ⟨by decide, by decide, by decide⟩

/-- C8 (amended): every failing load aborts with the single
RuntimeError regardless of cause, but the load is not atomic:
parameters assigned before the failing one keep their new values
(exhibited on a concrete module). -/
theorem c8_failure_amended :
    (∀ m sd : StateDict, isOkE (load_model m sd) = false →
      load_model m sd = .error .runtimeError) ∧
    (load_model [("a", Param.mk [1] 0), ("b", Param.mk [2] 0)]
        [("a", Param.mk [1] 5), ("b", Param.mk [3] 7)] = .error .runtimeError ∧
     (applyStateDict [("a", Param.mk [1] 0), ("b", Param.mk [2] 0)]
        (remapSD [("a", Param.mk [1] 5), ("b", Param.mk [3] 7)])).1 ≠
       [("a", Param.mk [1] 0), ("b", Param.mk [2] 0)]) := by
  constructor
  · intro m sd h
    by_cases hc : (applyStateDict m (remapSD sd)).2.2.2 = []
    · simp [load_model, hc, isOkE] at h
    · simp [load_model, hc]
  · refine ⟨by decide, by decide⟩

/-- C8 witness: the amended theorem applied to a concrete failing load. -/
theorem c8_failure_amended_witness :
    load_model [("x", Param.mk [1] 0)] [("x", Param.mk [2] 1)] = .error .runtimeError :=
  c8_failure_amended.1 [("x", Param.mk [1] 0)] [("x", Param.mk [2] 1)] (by decide)

/-- C9: with a single pre_train path the normalization wraps the whole
list inside another list, so `torch.load` receives a list instead of a
path and construction fails with a TypeError; with two paths the two
loads receive the two paths as intended. -/
theorem c9_pre_train_single_path_bug :
    preTrainPaths ["ckpt.pt"] = .error .typeError ∧
    preTrainPaths ["a.pt", "b.pt"] = .ok (some ("a.pt", "b.pt")) := by
  refine ⟨by decide, by decide⟩

/-- C10: for every model with phone_dim = 0, speaker_dim nonzero and
average pooling enabled, every forward call fails with an
AttributeError in the replication step — it reads the sequence length
from the absent phonetic code — before any fused code is produced. -/
theorem c10_forward_unusable (c : DualConfig) (h1 : c.phone_dim = 0)
    (h2 : c.speaker_dim ≠ 0) (h3 : c.average_pooling = true)
    (phoneticOut speakerOut : Tensor3) :
    dualForwardCode c phoneticOut speakerOut = .error .attributeError := by
  simp [dualForwardCode, fuseStep, replicateCode, h1, h2, h3, Bind.bind, Except.bind]

/-- C10 witness: the speaker-only average-pooling config fails on a
concrete forward input. -/
theorem c10_forward_unusable_witness :
    dualForwardCode cfgSpeakerOnlyAvgPool [[[1, 2]]] [[[3, 4]]] = .error .attributeError :=
  c10_forward_unusable cfgSpeakerOnlyAvgPool rfl (by decide) rfl [[[1, 2]]] [[[3, 4]]]

end ModelDual
